import Mathlib

/-!
Shallow embedding of the spotify-mcp credential-lifecycle and device layers.

The definitions below translate the Python source files:
  - src/spotify/auth.py      (token persistence, staleness, refresh)
  - src/spotify/devices.py   (device cache, TTL, ingestion filter, resolver)
  - src/spotify/playback.py  (build_play_body)
  - src/spotify/tools.py     (device choice in spotify_play)

Time is modelled as `Int` (the code compares `int(time.time())` and epoch
seconds); outbound HTTP calls are modelled by passing their outcome in as an
explicit argument, and file persistence by an explicit store value threaded
through the functions.
-/

/-- Python truthiness of an optional string: `None` and `""` are falsy. -/
def truthyStr : Option String → Bool
  | none => false
  | some s => s ≠ ""

/-- Python truthiness of an optional list: `None` and `[]` are falsy. -/
def truthyList {α : Type} : Option (List α) → Bool
  | none => false
  | some l => !l.isEmpty

/-- The persisted credential record written by `save_tokens` in auth.py:
fields `access_token`, `refresh_token` (may be null), `expires_at`
(absolute epoch seconds), `scopes`. -/
structure Tokens where
  access_token : String
  refresh_token : Option String
  expires_at : Int
  scopes : String
deriving Repr, DecidableEq

/-- Parsed JSON body of a successful token-endpoint response: fields
`access_token`, optional `refresh_token`, and relative `expires_in`. -/
structure TokenResponse where
  access_token : String
  refresh_token : Option String
  expires_in : Int
deriving Repr, DecidableEq

/-- `need_refresh` (auth.py line 75-76):
`int(time.time()) > int(tokens["expires_at"]) - 10`. -/
def need_refresh (tokens : Tokens) (now : Int) : Bool :=
  now > tokens.expires_at - 10

/-- Outcome of `refresh_access_token` (auth.py lines 78-97): the returned
value (access token or the propagated exception), the in-memory record after
the call (the code mutates the dict in place), and the record written by
`save_tokens` during the call (`none` when nothing was written). -/
structure RefreshOutcome where
  result : Except String String
  tokens : Tokens
  saved : Option Tokens
deriving Repr

/-- `refresh_access_token` (auth.py lines 78-97). The outbound POST to the
token endpoint is modelled by `call`: `.error e` when the request raised
(non-2xx via `raise_for_status`, network error, or an unusable missing
refresh token), `.ok newtok` with the parsed JSON on success. On success the
code replaces `access_token`, recomputes `expires_at = now + expires_in`,
replaces `refresh_token` only when the response's `refresh_token` is truthy,
then calls `save_tokens` and returns the new access token. -/
def refresh_access_token (tokens : Tokens) (now : Int)
    (call : Except String TokenResponse) : RefreshOutcome :=
  match call with
  | .error e => ⟨.error e, tokens, none⟩
  | .ok newtok =>
    let t1 : Tokens := { tokens with
      access_token := newtok.access_token,
      expires_at := now + newtok.expires_in }
    let t2 : Tokens :=
      if truthyStr newtok.refresh_token then
        { t1 with refresh_token := newtok.refresh_token }
      else t1
    ⟨.ok t2.access_token, t2, some t2⟩

/-- Outcome of `get_access_token`: the returned access token or error, the
persisted store after the call, the in-memory record after the call (when one
was loaded), and the number of outbound token-endpoint calls made. -/
structure AuthOutcome where
  result : Except String String
  store : Option Tokens
  memory : Option Tokens
  calls : Nat
deriving Repr

/-- `get_access_token` (auth.py lines 99-105): loads the stored record
(`store` models the tokens file, `none` when absent), raises when none is
stored, returns the stored access token untouched when `need_refresh` is
false, and otherwise performs exactly one refresh attempt whose outbound-call
outcome is `call`. -/
def get_access_token (store : Option Tokens) (now : Int)
    (call : Except String TokenResponse) : AuthOutcome :=
  match store with
  | none => ⟨.error "Not authorized yet. Visit /login first.", none, none, 0⟩
  | some tokens =>
    if need_refresh tokens now then
      let out := refresh_access_token tokens now call
      ⟨out.result, (out.saved.getD tokens), some out.tokens, 1⟩
    else
      ⟨.ok tokens.access_token, some tokens, some tokens, 0⟩

/-- **C1** — A credential is stale exactly when `now > expires_at - 10`
(strict, fixed 10-second margin): `get_access_token` on a stored credential
performs a refresh call iff `now > expires_at - 10`; a credential expiring in
5 seconds triggers a refresh and one expiring in 3600 seconds does not. -/
theorem c1_staleness (tokens : Tokens) (now : Int)
    (call : Except String TokenResponse) :
    (need_refresh tokens now = true ↔ now > tokens.expires_at - 10)
    ∧ ((get_access_token (some tokens) now call).calls = 1 ↔
        now > tokens.expires_at - 10)
    ∧ (tokens.expires_at = now + 5 →
        (get_access_token (some tokens) now call).calls = 1)
    ∧ (tokens.expires_at = now + 3600 →
        (get_access_token (some tokens) now call).calls = 0) := by
  refine ⟨by simp [need_refresh], ?_, ?_, ?_⟩
  · unfold get_access_token
    by_cases h : need_refresh tokens now
    · simp [h]
      simpa [need_refresh] using h
    · simp [h]
      simpa [need_refresh] using h
  · intro h
    have hs : need_refresh tokens now = true := by
      simp [need_refresh, h]; omega
    simp [get_access_token, hs]
  · intro h
    have hs : need_refresh tokens now = false := by
      simp [need_refresh, h]; omega
    simp [get_access_token, hs]

/-- Witness for C1 at concrete inputs. -/
theorem c1_staleness_witness :
    (get_access_token (some ⟨"a", some "r", 105, "sc"⟩) 100 (.error "e")).calls = 1
    ∧ (get_access_token (some ⟨"a", some "r", 3700, "sc"⟩) 100 (.error "e")).calls = 0 :=
  ⟨(c1_staleness ⟨"a", some "r", 105, "sc"⟩ 100 (.error "e")).2.2.1 (by decide),
   (c1_staleness ⟨"a", some "r", 3700, "sc"⟩ 100 (.error "e")).2.2.2 (by decide)⟩

/-- **C2** — `get_access_token` non-refresh behaviour: with no stored
credential it fails (the unauthenticated error) and makes no network call;
with a stored credential that is not stale it returns that credential's
access token unchanged with no network call, leaving the stored record
unmodified. -/
theorem c2_non_refresh (tokens : Tokens) (now : Int)
    (call : Except String TokenResponse) :
    (get_access_token none now call
      = ⟨.error "Not authorized yet. Visit /login first.", none, none, 0⟩)
    ∧ (need_refresh tokens now = false →
        get_access_token (some tokens) now call
          = ⟨.ok tokens.access_token, some tokens, some tokens, 0⟩) := by
  refine ⟨rfl, ?_⟩
  intro h
  simp [get_access_token, h]

/-- Witness for C2 at concrete inputs. -/
theorem c2_non_refresh_witness :
    (get_access_token none 100 (.error "e")
      = ⟨.error "Not authorized yet. Visit /login first.", none, none, 0⟩)
    ∧ (get_access_token (some ⟨"tok", some "r", 3700, "sc"⟩) 100 (.error "e")
      = ⟨.ok "tok", some ⟨"tok", some "r", 3700, "sc"⟩,
          some ⟨"tok", some "r", 3700, "sc"⟩, 0⟩) :=
  ⟨(c2_non_refresh ⟨"tok", some "r", 3700, "sc"⟩ 100 (.error "e")).1,
   (c2_non_refresh ⟨"tok", some "r", 3700, "sc"⟩ 100 (.error "e")).2 (by decide)⟩

/-- **C3** — Refresh-failure atomicity: for a stale stored credential whose
refresh call fails, `get_access_token` fails with the underlying cause, makes
exactly one call (no retry), does not return the stale access token, and
leaves both the persisted and the in-memory record exactly as they were
(nothing is written to the store). -/
theorem c3_refresh_failure (tokens : Tokens) (now : Int) (e : String)
    (h : need_refresh tokens now = true) :
    (get_access_token (some tokens) now (.error e)).result = .error e
    ∧ (get_access_token (some tokens) now (.error e)).calls = 1
    ∧ (get_access_token (some tokens) now (.error e)).store = some tokens
    ∧ (get_access_token (some tokens) now (.error e)).memory = some tokens
    ∧ (refresh_access_token tokens now (.error e)).saved = none := by
  simp [get_access_token, refresh_access_token, h]

/-- Witness for C3 at a concrete stale credential. -/
theorem c3_refresh_failure_witness :
    (get_access_token (some ⟨"old", some "r", 100, "sc"⟩) 100 (.error "boom")).result
      = .error "boom"
    ∧ (get_access_token (some ⟨"old", some "r", 100, "sc"⟩) 100 (.error "boom")).calls = 1
    ∧ (get_access_token (some ⟨"old", some "r", 100, "sc"⟩) 100 (.error "boom")).store
      = some ⟨"old", some "r", 100, "sc"⟩
    ∧ (get_access_token (some ⟨"old", some "r", 100, "sc"⟩) 100 (.error "boom")).memory
      = some ⟨"old", some "r", 100, "sc"⟩
    ∧ (refresh_access_token ⟨"old", some "r", 100, "sc"⟩ 100 (.error "boom")).saved
      = none :=
  c3_refresh_failure ⟨"old", some "r", 100, "sc"⟩ 100 "boom" (by decide)

/-- **C4** — Refresh postcondition and write-through: a successful refresh
replaces the access token and sets `expires_at = now + expires_in`, replaces
the refresh token exactly when the response supplies one (truthy) and keeps
the old one otherwise, leaves the scopes untouched, writes the updated record
to the store, and returns the new access token; the persisted record equals
the in-memory one. -/
theorem c4_refresh_success (tokens : Tokens) (now : Int) (resp : TokenResponse) :
    (refresh_access_token tokens now (.ok resp)).tokens.access_token
      = resp.access_token
    ∧ (refresh_access_token tokens now (.ok resp)).tokens.expires_at
      = now + resp.expires_in
    ∧ (refresh_access_token tokens now (.ok resp)).tokens.refresh_token
      = (if truthyStr resp.refresh_token then resp.refresh_token
         else tokens.refresh_token)
    ∧ (refresh_access_token tokens now (.ok resp)).tokens.scopes = tokens.scopes
    ∧ (refresh_access_token tokens now (.ok resp)).saved
      = some (refresh_access_token tokens now (.ok resp)).tokens
    ∧ (refresh_access_token tokens now (.ok resp)).result
      = .ok resp.access_token := by
  unfold refresh_access_token
  by_cases h : truthyStr resp.refresh_token <;> simp [h]

/-- C4 also holds through `get_access_token`: after a stale credential is
successfully refreshed, the persisted store equals the in-memory record. -/
theorem c4_write_through (tokens : Tokens) (now : Int) (resp : TokenResponse)
    (h : need_refresh tokens now = true) :
    (get_access_token (some tokens) now (.ok resp)).store
      = (get_access_token (some tokens) now (.ok resp)).memory
    ∧ (get_access_token (some tokens) now (.ok resp)).result
      = .ok resp.access_token := by
  simp [get_access_token, h, refresh_access_token]
  by_cases hr : truthyStr resp.refresh_token <;> simp [hr]

/-- Witness for `c4_write_through` at a concrete stale credential. -/
theorem c4_write_through_witness :
    (get_access_token (some ⟨"old", some "r0", 100, "sc"⟩) 100
        (.ok ⟨"new", some "r1", 3600⟩)).store
      = (get_access_token (some ⟨"old", some "r0", 100, "sc"⟩) 100
        (.ok ⟨"new", some "r1", 3600⟩)).memory
    ∧ (get_access_token (some ⟨"old", some "r0", 100, "sc"⟩) 100
        (.ok ⟨"new", some "r1", 3600⟩)).result = .ok "new" :=
  c4_write_through ⟨"old", some "r0", 100, "sc"⟩ 100 ⟨"new", some "r1", 3600⟩ (by decide)

/-- `DeviceInfo` (devices.py lines 10-16): a structured playback device
record. -/
structure DeviceInfo where
  id : String
  name : String
  is_active : Bool
  volume_percent : Option Int
  type : String
deriving Repr, DecidableEq

/-- One raw entry of the device-listing endpoint's `devices` array, before
ingestion; every field may be absent in the JSON. -/
structure RawDevice where
  id : Option String
  name : Option String
  is_active : Option Bool
  volume_percent : Option Int
  type : Option String
deriving Repr, DecidableEq

/-- The device-list response consumed by `fetch_devices_data`: HTTP status
code, raw body text, and the parsed `devices` array (already `[]` when the
key is missing or null, mirroring `r.json().get("devices", []) or []`). -/
structure DevicesResponse where
  status_code : Int
  text : String
  devices : List RawDevice
deriving Repr, DecidableEq

/-- The ingestion comprehension of `fetch_devices_data` (devices.py lines
58-68): keep exactly the raw entries whose `id` is truthy (present and
non-empty), in order, and build a `DeviceInfo` from each with the source's
defaults. -/
def ingest (raw : List RawDevice) : List DeviceInfo :=
  (raw.filter (fun d => truthyStr d.id)).map (fun d =>
    ⟨d.id.getD "", d.name.getD "Unknown", d.is_active.getD false,
     d.volume_percent, d.type.getD "Unknown"⟩)

/-- `DevicesCache` state (devices.py lines 19-38): TTL in seconds, the
cached snapshot, and the instant it was fetched (0 initially). -/
structure DevicesCache where
  ttl_seconds : Int
  devices : List DeviceInfo
  last_fetch : Int
deriving Repr, DecidableEq

/-- `DevicesCache.is_expired` (devices.py lines 27-29):
`time.time() - self._last_fetch > self.ttl_seconds`. -/
def DevicesCache.is_expired (c : DevicesCache) (now : Int) : Bool :=
  now - c.last_fetch > c.ttl_seconds

/-- `DevicesCache.update` (devices.py lines 31-34): replace the snapshot
wholesale and record the fetch instant. -/
def DevicesCache.update (c : DevicesCache) (devices : List DeviceInfo)
    (now : Int) : DevicesCache :=
  { c with devices := devices, last_fetch := now }

/-- Outcome of `fetch_devices_data`: the returned device list (or the raised
error string), the cache state after the call, and the number of upstream
calls made. -/
structure FetchOutcome where
  result : Except String (List DeviceInfo)
  cache : DevicesCache
  calls : Nat
deriving Repr

/-- `fetch_devices_data` (devices.py lines 45-71): serve the cached snapshot
when the cache is not expired; otherwise make one upstream call (its response
modelled by `resp`), raise `devices API failed: <status> <text>` on a status
other than 200 leaving the cache untouched, and on 200 ingest, replace the
snapshot and return it. -/
def fetch_devices_data (c : DevicesCache) (now : Int)
    (resp : DevicesResponse) : FetchOutcome :=
  if ¬ c.is_expired now then
    ⟨.ok c.devices, c, 0⟩
  else if resp.status_code ≠ 200 then
    ⟨.error ("devices API failed: " ++ toString resp.status_code ++ " " ++ resp.text),
     c, 1⟩
  else
    let devices := ingest resp.devices
    ⟨.ok devices, c.update devices now, 1⟩

/-- The pure resolution policy of `get_active_device_id` (devices.py lines
74-93) over a fetched snapshot: `None` for an empty snapshot, else the first
device flagged active, else the first device. -/
def resolve_active_device_id (devices : List DeviceInfo) : Option String :=
  match devices with
  | [] => none
  | d :: ds =>
    match (d :: ds).find? (fun x => x.is_active) with
    | some a => some a.id
    | none => some d.id

/-- The device choice of `spotify_play` (tools.py line 67):
`dev = device_id or await get_active_device_id()` — Python `or` falls back to
the resolver whenever `device_id` is falsy (absent or the empty string). -/
def spotify_play_choose_device (device_id : Option String)
    (resolved : Option String) : Option String :=
  if truthyStr device_id then device_id else resolved

/-- `find?` on the active flag returns the element at the first index whose
flag is set, when every earlier index has it unset. -/
lemma find_first_active (l : List DeviceInfo) (i : Nat) (hi : i < l.length)
    (ha : (l.get ⟨i, hi⟩).is_active = true)
    (hb : ∀ j (hj : j < l.length), j < i → (l.get ⟨j, hj⟩).is_active = false) :
    l.find? (fun x => x.is_active) = some (l.get ⟨i, hi⟩) := by
  induction l generalizing i with
  | nil => simp at hi
  | cons d ds ih =>
    cases i with
    | zero =>
      simp at ha
      simp [List.find?, ha]
    | succ k =>
      have hd : d.is_active = false := hb 0 (by simp) (Nat.succ_pos k)
      have hk : k < ds.length := Nat.lt_of_succ_lt_succ hi
      have := ih k hk (by simpa using ha)
        (fun j hj hlt => by
          simpa using hb (j + 1) (by simpa using Nat.succ_lt_succ hj)
            (Nat.succ_lt_succ hlt))
      simpa [List.find?, hd] using this

/-- **C6** — Device-resolver tie-break: with no explicit device id, an empty
snapshot resolves to absent; the device at the first index flagged active (all
earlier ones inactive) is chosen, in snapshot order; and when no device is
active the first device of the snapshot is chosen. -/
theorem c6_resolver (devices : List DeviceInfo) :
    (devices = [] → resolve_active_device_id devices = none)
    ∧ (∀ i : Nat, ∀ hi : i < devices.length,
        (devices.get ⟨i, hi⟩).is_active = true →
        (∀ j : Nat, ∀ hj : j < devices.length, j < i →
          (devices.get ⟨j, hj⟩).is_active = false) →
        resolve_active_device_id devices = some (devices.get ⟨i, hi⟩).id)
    ∧ ((∀ d ∈ devices, d.is_active = false) →
        ∀ d ds, devices = d :: ds →
        resolve_active_device_id devices = some d.id) := by
  refine ⟨fun h => by subst h; rfl, ?_, ?_⟩
  · intro i hi ha hb
    have hfind := find_first_active devices i hi ha hb
    match devices, hi with
    | d :: ds, _ => simp [resolve_active_device_id, hfind]
  · intro hall d ds hdev
    subst hdev
    have hfind : (d :: ds).find? (fun x => x.is_active) = none := by
      rw [List.find?_eq_none]
      intro x hx
      simp [hall x hx]
    simp [resolve_active_device_id, hfind]

/-- Witness for C6: the spec's three snapshots — `[A inactive, B active,
C inactive]` resolves to `B`, an all-inactive snapshot to its first entry
`A`, an empty snapshot to absent. -/
theorem c6_resolver_witness :
    resolve_active_device_id
      [⟨"A", "a", false, none, "t"⟩, ⟨"B", "b", true, none, "t"⟩,
       ⟨"C", "c", false, none, "t"⟩] = some "B"
    ∧ resolve_active_device_id
      [⟨"A", "a", false, none, "t"⟩, ⟨"C", "c", false, none, "t"⟩] = some "A"
    ∧ resolve_active_device_id [] = none :=
  ⟨(c6_resolver _).2.1 1 (by decide) (by decide)
      (fun j hj hlt => by interval_cases j; rfl),
   (c6_resolver _).2.2 (by decide) _ _ rfl,
   (c6_resolver []).1 rfl⟩

/-- **C7** — Device-cache TTL discipline: a `fetch_devices_data` call whose
snapshot age is at most the TTL returns the snapshot unchanged with no
upstream call; a call after the age exceeds the TTL makes exactly one
upstream call and (on success) replaces the snapshot wholesale; hence two
calls inside one TTL window make one upstream call in total and a third call
after the TTL elapses makes a second. -/
theorem c7_ttl (c : DevicesCache) (now : Int) (resp : DevicesResponse) :
    (now - c.last_fetch ≤ c.ttl_seconds →
      fetch_devices_data c now resp = ⟨.ok c.devices, c, 0⟩)
    ∧ (now - c.last_fetch > c.ttl_seconds →
      (fetch_devices_data c now resp).calls = 1)
    ∧ (now - c.last_fetch > c.ttl_seconds → resp.status_code = 200 →
      (fetch_devices_data c now resp).cache
        = ⟨c.ttl_seconds, ingest resp.devices, now⟩)
    ∧ (∀ t1 t2 : Int, ∀ r1 r2 : DevicesResponse,
      now - c.last_fetch > c.ttl_seconds → resp.status_code = 200 →
      t1 - now ≤ c.ttl_seconds → t2 - now > c.ttl_seconds →
      (fetch_devices_data c now resp).calls
        + (fetch_devices_data (fetch_devices_data c now resp).cache t1 r1).calls = 1
      ∧ (fetch_devices_data
          (fetch_devices_data (fetch_devices_data c now resp).cache t1 r1).cache
          t2 r2).calls = 1) := by
  refine ⟨?_, ?_, ?_, ?_⟩
  · intro h
    have hexp : c.is_expired now = false := by
      simp [DevicesCache.is_expired]; omega
    simp [fetch_devices_data, hexp]
  · intro h
    have hexp : c.is_expired now = true := by
      simp [DevicesCache.is_expired]; omega
    by_cases hs : resp.status_code = 200 <;>
      simp [fetch_devices_data, hexp, hs, DevicesCache.update]
  · intro h hs
    have hexp : c.is_expired now = true := by
      simp [DevicesCache.is_expired]; omega
    simp [fetch_devices_data, hexp, hs, DevicesCache.update]
  · intro t1 t2 r1 r2 h hs h1 h2
    have hexp : c.is_expired now = true := by
      simp [DevicesCache.is_expired]; omega
    have hc1 : fetch_devices_data c now resp
        = ⟨.ok (ingest resp.devices), ⟨c.ttl_seconds, ingest resp.devices, now⟩, 1⟩ := by
      simp [fetch_devices_data, hexp, hs, DevicesCache.update]
    have hexp1 : DevicesCache.is_expired ⟨c.ttl_seconds, ingest resp.devices, now⟩ t1
        = false := by
      simp [DevicesCache.is_expired]; omega
    have hc2 : fetch_devices_data ⟨c.ttl_seconds, ingest resp.devices, now⟩ t1 r1
        = ⟨.ok (ingest resp.devices), ⟨c.ttl_seconds, ingest resp.devices, now⟩, 0⟩ := by
      simp [fetch_devices_data, hexp1]
    have hexp2 : DevicesCache.is_expired ⟨c.ttl_seconds, ingest resp.devices, now⟩ t2
        = true := by
      simp [DevicesCache.is_expired]; omega
    refine ⟨by simp [hc1, hc2], ?_⟩
    have hcache : (fetch_devices_data (fetch_devices_data c now resp).cache t1 r1).cache
        = ⟨c.ttl_seconds, ingest resp.devices, now⟩ := by
      simp [hc1, hc2]
    rw [hcache]
    by_cases hs2 : r2.status_code = 200 <;>
      simp [fetch_devices_data, hexp2, hs2, DevicesCache.update]

/-- Witness for C7 at concrete inputs: an expired cache refilled at time 100,
re-read at 105 (no call), re-read again at 111 (one call). -/
theorem c7_ttl_witness :
    fetch_devices_data ⟨10, [], 95⟩ 100 ⟨200, "ok", []⟩
      = ⟨.ok [], ⟨10, [], 95⟩, 0⟩
    ∧ (fetch_devices_data ⟨10, [], 0⟩ 100 ⟨200, "ok", []⟩).calls
      + (fetch_devices_data (fetch_devices_data ⟨10, [], 0⟩ 100 ⟨200, "ok", []⟩).cache
          105 ⟨200, "ok", []⟩).calls = 1
    ∧ (fetch_devices_data
        (fetch_devices_data (fetch_devices_data ⟨10, [], 0⟩ 100 ⟨200, "ok", []⟩).cache
          105 ⟨200, "ok", []⟩).cache 111 ⟨200, "ok", []⟩).calls = 1 :=
  ⟨(c7_ttl ⟨10, [], 95⟩ 100 ⟨200, "ok", []⟩).1 (by decide),
   ((c7_ttl ⟨10, [], 0⟩ 100 ⟨200, "ok", []⟩).2.2.2 105 111 ⟨200, "ok", []⟩
      ⟨200, "ok", []⟩ (by decide) (by decide) (by decide) (by decide)).1,
   ((c7_ttl ⟨10, [], 0⟩ 100 ⟨200, "ok", []⟩).2.2.2 105 111 ⟨200, "ok", []⟩
      ⟨200, "ok", []⟩ (by decide) (by decide) (by decide) (by decide)).2⟩

/-- **C8** — Device-fetch failure atomicity: when an expired-cache refill
attempt receives a non-2xx response, `fetch_devices_data` fails with the
`devices API failed` error carrying the upstream status and body, and the
cache (snapshot and recorded fetch instant alike) is left exactly as it was
before the call. -/
theorem c8_fetch_failure (c : DevicesCache) (now : Int) (resp : DevicesResponse)
    (hexp : c.is_expired now = true)
    (h2xx : ¬ (200 ≤ resp.status_code ∧ resp.status_code < 300)) :
    (fetch_devices_data c now resp).result
      = .error ("devices API failed: " ++ toString resp.status_code ++ " "
          ++ resp.text)
    ∧ (fetch_devices_data c now resp).cache = c
    ∧ (fetch_devices_data c now resp).calls = 1 := by
  have hs : resp.status_code ≠ 200 := by omega
  simp [fetch_devices_data, hexp, hs]

/-- Witness for C8: a concrete 404 refill attempt. -/
theorem c8_fetch_failure_witness :
    (fetch_devices_data ⟨10, [⟨"A", "a", true, none, "t"⟩], 0⟩ 100
        ⟨404, "nope", []⟩).result
      = .error "devices API failed: 404 nope"
    ∧ (fetch_devices_data ⟨10, [⟨"A", "a", true, none, "t"⟩], 0⟩ 100
        ⟨404, "nope", []⟩).cache
      = ⟨10, [⟨"A", "a", true, none, "t"⟩], 0⟩
    ∧ (fetch_devices_data ⟨10, [⟨"A", "a", true, none, "t"⟩], 0⟩ 100
        ⟨404, "nope", []⟩).calls = 1 :=
  c8_fetch_failure ⟨10, [⟨"A", "a", true, none, "t"⟩], 0⟩ 100 ⟨404, "nope", []⟩
    (by decide) (by decide)

/-- Every record produced by ingestion has a non-empty identifier. -/
lemma ingest_mem_id_ne (raw : List RawDevice) :
    ∀ d ∈ ingest raw, d.id ≠ "" := by
  intro d hd
  simp only [ingest, List.mem_map, List.mem_filter] at hd
  obtain ⟨x, ⟨hx, htruthy⟩, rfl⟩ := hd
  cases hid : x.id with
  | none => rw [hid] at htruthy; simp [truthyStr] at htruthy
  | some s =>
    rw [hid] at htruthy
    simp only [truthyStr, ne_eq, decide_eq_true_eq] at htruthy
    simpa [hid] using htruthy

/-- **C9** — Device ingestion filter: ingestion keeps exactly the response
entries whose identifier is present and non-empty, in the response's order
(an entry with a truthy id contributes one record in place, any other entry
is discarded), every record stored has a non-empty identifier, and a
successful expired-cache refill stores exactly the ingested records. -/
theorem c9_ingest (raw : List RawDevice) :
    (∀ d ∈ ingest raw, d.id ≠ "")
    ∧ ingest [] = []
    ∧ (∀ d : RawDevice, truthyStr d.id = false → ingest (d :: raw) = ingest raw)
    ∧ (∀ d : RawDevice, truthyStr d.id = true →
        ingest (d :: raw)
          = ⟨d.id.getD "", d.name.getD "Unknown", d.is_active.getD false,
             d.volume_percent, d.type.getD "Unknown"⟩ :: ingest raw)
    ∧ (∀ c : DevicesCache, ∀ now : Int, ∀ resp : DevicesResponse,
        c.is_expired now = true → resp.status_code = 200 →
        (fetch_devices_data c now resp).cache.devices = ingest resp.devices) := by
  refine ⟨ingest_mem_id_ne raw, rfl, ?_, ?_, ?_⟩
  · intro d h
    simp [ingest, List.filter, h]
  · intro d h
    simp [ingest, List.filter, h]
  · intro c now resp hexp hs
    simp [fetch_devices_data, hexp, hs, DevicesCache.update]

/-- Witness for C9: the spec's three-entry response — one empty id, two valid
ids — ingests to exactly the two valid records, order preserved. -/
theorem c9_ingest_witness :
    ingest [⟨some "", some "x", some true, none, some "t"⟩,
            ⟨some "A", some "a", some false, some 50, some "t"⟩,
            ⟨some "B", some "b", some true, none, some "t"⟩]
      = ingest [⟨some "A", some "a", some false, some 50, some "t"⟩,
                ⟨some "B", some "b", some true, none, some "t"⟩]
    ∧ ingest [⟨some "A", some "a", some false, some 50, some "t"⟩,
              ⟨some "B", some "b", some true, none, some "t"⟩]
      = [⟨"A", "a", false, some 50, "t"⟩, ⟨"B", "b", true, none, "t"⟩] :=
  ⟨(c9_ingest [⟨some "A", some "a", some false, some 50, some "t"⟩,
               ⟨some "B", some "b", some true, none, some "t"⟩]).2.2.1
      ⟨some "", some "x", some true, none, some "t"⟩ (by decide),
   by decide⟩

/-- **C10** — `spotify_play` with an explicitly supplied empty-string device
id does not pass the empty id through: Python `or` treats it as absent, the
resolver fallback runs exactly as when no id was given, and a resolver answer
over an ingested snapshot is never the empty string. -/
theorem c10_empty_device_id (raw : List RawDevice) (resolved : Option String) :
    spotify_play_choose_device (some "") resolved = resolved
    ∧ spotify_play_choose_device none resolved = resolved
    ∧ (∀ s : String, s ≠ "" →
        spotify_play_choose_device (some s) resolved = some s)
    ∧ (∀ s : String, resolve_active_device_id (ingest raw) = some s → s ≠ "") := by
  refine ⟨by simp [spotify_play_choose_device, truthyStr],
    by simp [spotify_play_choose_device, truthyStr], ?_, ?_⟩
  · intro s hs
    simp [spotify_play_choose_device, truthyStr, hs]
  · intro s hres
    cases hing : ingest raw with
    | nil => rw [hing] at hres; simp [resolve_active_device_id] at hres
    | cons d ds =>
      rw [hing] at hres
      simp only [resolve_active_device_id] at hres
      cases hfind : (d :: ds).find? (fun x => x.is_active) with
      | some a =>
        rw [hfind] at hres
        have ha : a ∈ ingest raw := by
          rw [hing]; exact List.mem_of_find?_eq_some hfind
        have := ingest_mem_id_ne raw a ha
        simp only [Option.some.injEq] at hres
        exact hres ▸ this
      | none =>
        rw [hfind] at hres
        have hd : d ∈ ingest raw := by rw [hing]; exact List.mem_cons_self d ds
        have := ingest_mem_id_ne raw d hd
        simp only [Option.some.injEq] at hres
        exact hres ▸ this

/-- Witness for C10 at concrete inputs: an empty-string id falls back to the
resolver's answer, a non-empty id is passed through, and the resolved id of a
concrete ingested snapshot is non-empty. -/
theorem c10_empty_device_id_witness :
    spotify_play_choose_device (some "") (some "B") = some "B"
    ∧ spotify_play_choose_device (some "X") (some "B") = some "X"
    ∧ ("A" : String) ≠ "" :=
  ⟨(c10_empty_device_id [] (some "B")).1,
   (c10_empty_device_id [] (some "B")).2.2.1 "X" (by decide),
   (c10_empty_device_id [⟨some "A", some "a", some true, none, some "t"⟩]
      none).2.2.2 "A" (by decide)⟩

/-- The JSON payload built by `build_play_body` (playback.py): optional
`context_uri`, optional `uris` array whose elements may be JSON null (the
code can emit `[None]`), optional integer `position_ms`. A field set to
`none` is absent from the payload. -/
structure PlayBody where
  context_uri : Option String
  uris : Option (List (Option String))
  position_ms : Option Int
deriving Repr, DecidableEq

/-- `provided` in `build_play_body` (playback.py line 25):
`sum(x is not None for x in (context_uri, uris, track_uri))`. -/
def providedCount (track_uri context_uri : Option String)
    (uris : Option (List String)) : Nat :=
  (if context_uri.isSome then 1 else 0) + (if uris.isSome then 1 else 0)
    + (if track_uri.isSome then 1 else 0)

/-- `build_play_body` (playback.py lines 12-44). Zero of the three URI
arguments provided gives the empty body; more than one raises; with exactly
one provided the branch is chosen by Python truthiness (`if context_uri`,
`elif uris`, `else`), so a provided-but-falsy `context_uri` or `uris` falls
through to the `track_uri` branch `{"uris": [track_uri]}`. A provided
`position_ms` must be non-negative and is added to the body afterwards. -/
def build_play_body (track_uri context_uri : Option String)
    (uris : Option (List String)) (position_ms : Option Int) :
    Except String PlayBody :=
  let provided := providedCount track_uri context_uri uris
  let bodyE : Except String PlayBody :=
    if provided = 0 then .ok ⟨none, none, none⟩
    else if provided > 1 then
      .error "Provide only one of: context_uri, uris, track_uri."
    else if truthyStr context_uri then .ok ⟨context_uri, none, none⟩
    else if truthyList uris then
      .ok ⟨none, uris.map (fun l => l.map some), none⟩
    else .ok ⟨none, some [track_uri], none⟩
  match bodyE with
  | .error e => .error e
  | .ok body =>
    match position_ms with
    | none => .ok body
    | some p =>
      if p < 0 then .error "position_ms must be >= 0"
      else .ok { body with position_ms := some p }

/-- **C5 counterexample** — the claim says a provided `uris` list is passed
through exactly as given, including the empty list; but
`build_play_body(uris=[])` yields `{"uris": [null]}` (the empty list is falsy
in Python, so control falls to the `track_uri` branch with `track_uri =
None`), not the pass-through `{"uris": []}`. -/
theorem c5_counterexample :
    build_play_body none none (some []) none = .ok ⟨none, some [none], none⟩
    ∧ build_play_body none none (some []) none ≠ .ok ⟨none, some [], none⟩ := by
  refine ⟨rfl, fun h => ?_⟩
  rw [show build_play_body none none (some []) none
      = .ok ⟨none, some [none], none⟩ from rfl] at h
  simp at h

/-- **C5 (amended)** — `build_play_body` contract: zero URI arguments give
the empty payload; two or more give the `Provide only one of` error
regardless of `position_ms`; with exactly one provided, a non-empty
`context_uri` gives `{context_uri}`, a non-empty `uris` list is passed
through exactly as given, a `track_uri` gives `{uris: [track_uri]}`, and a
provided-but-empty `uris` list falls through to `{uris: [null]}`; a provided
`position_ms < 0` is rejected whenever the URI arguments are accepted, and a
provided `position_ms ≥ 0` is added as an integer field to the payload the
same call would build without it. -/
theorem c5_build_play_body (t c : Option String) (u : Option (List String))
    (p : Option Int) :
    (build_play_body none none none none = .ok ⟨none, none, none⟩)
    ∧ (providedCount t c u ≥ 2 →
        build_play_body t c u p
          = .error "Provide only one of: context_uri, uris, track_uri.")
    ∧ (providedCount t c u ≤ 1 → ∀ q : Int, q < 0 →
        build_play_body t c u (some q) = .error "position_ms must be >= 0")
    ∧ (∀ q : Int, 0 ≤ q →
        build_play_body t c u (some q)
          = (build_play_body t c u none).map
              (fun b => { b with position_ms := some q }))
    ∧ (∀ s : String, s ≠ "" →
        build_play_body none (some s) none none = .ok ⟨some s, none, none⟩)
    ∧ (∀ l : List String, l ≠ [] →
        build_play_body none none (some l) none
          = .ok ⟨none, some (l.map some), none⟩)
    ∧ (∀ s : String,
        build_play_body (some s) none none none = .ok ⟨none, some [some s], none⟩)
    ∧ (build_play_body none none (some []) none = .ok ⟨none, some [none], none⟩) := by
  refine ⟨rfl, ?_, ?_, ?_, ?_, ?_, ?_, rfl⟩
  · intro h
    have h0 : ¬ providedCount t c u = 0 := by omega
    have h1 : providedCount t c u > 1 := by omega
    simp [build_play_body, h0, h1]
  · intro h q hq
    by_cases h0 : providedCount t c u = 0
    · simp [build_play_body, h0, hq]
    · have hgt : ¬ providedCount t c u > 1 := by omega
      by_cases hc : truthyStr c <;> by_cases hu : truthyList u <;>
        simp [build_play_body, h0, hgt, hc, hu, hq]
  · intro q hq
    have hq2 : ¬ q < 0 := by omega
    by_cases h0 : providedCount t c u = 0
    · simp [build_play_body, h0, hq2, Except.map]
    · by_cases hgt : providedCount t c u > 1
      · simp [build_play_body, h0, hgt, Except.map]
      · by_cases hc : truthyStr c <;> by_cases hu : truthyList u <;>
          simp [build_play_body, h0, hgt, hc, hu, hq2, Except.map]
  · intro s hs
    have hc : truthyStr (some s) = true := by simp [truthyStr, hs]
    simp [build_play_body, providedCount, hc]
  · intro l hl
    have hu : truthyList (some l) = true := by
      simp [truthyList, List.isEmpty_iff, hl]
    simp [build_play_body, providedCount, truthyStr, hu]
  · intro s
    simp [build_play_body, providedCount, truthyStr, truthyList]

/-- Witness for the amended C5: the spec's concrete cases —
`trackUri="x"` gives `{uris:["x"]}`, `contextUri="c"` with `uris=["y"]` is
rejected, `positionMs=-1` is rejected, no arguments give `{}` — plus the
non-empty pass-through. -/
theorem c5_build_play_body_witness :
    build_play_body (some "x") none none none = .ok ⟨none, some [some "x"], none⟩
    ∧ build_play_body none (some "c") (some ["y"]) none
      = .error "Provide only one of: context_uri, uris, track_uri."
    ∧ build_play_body none none none (some (-1)) = .error "position_ms must be >= 0"
    ∧ build_play_body none none none none = .ok ⟨none, none, none⟩
    ∧ build_play_body none none (some ["y"]) none = .ok ⟨none, some [some "y"], none⟩ :=
  ⟨(c5_build_play_body none none none none).2.2.2.2.2.2.1 "x",
   (c5_build_play_body none (some "c") (some ["y"]) none).2.1 (by decide),
   (c5_build_play_body none none none (some (-1))).2.2.1 (by decide) (-1) (by decide),
   (c5_build_play_body none none none none).1,
   (c5_build_play_body none none (some ["y"]) none).2.2.2.2.2.1 ["y"] (by decide)⟩
